import Mathlib

/-!
# Verification of the scrapli_replay record/replay engine and simulation server

This development shallowly embeds the core logic of `scrapli_replay`:

* `scrapli_replay/replay/replay.py` — the session record/replay engine
  (`ScrapliReplayInstance` patched read/write methods, `ScrapliReplay.__init__`
  mode selection, `ScrapliReplay._serialize`), and
* `scrapli_replay/server/server.py` — the SSH simulation server session state
  machine (`BaseSSHServerSession`, `BaseServer`).

Modelling conventions:

* Device bytes are modelled as Lean `Char` lists / `String`s, one `Char` per
  byte. The source decodes byte buffers with UTF-8 (`bytes.decode()`), which is
  the identity on the ASCII traffic these claims concern, so `decode`/`encode`
  are the identity in the model.
* Python exceptions become `Except` errors; each exception class of
  `scrapli_replay/exceptions.py` carries only its message string, exactly as in
  the source.
* The external scrapli channel collaborator concerns (logger calls,
  `channel_log`, ANSI stripping controlled by `comms_ansi`) are pass-through
  side effects in the source read methods and are not part of the recorded /
  replayed data; they are omitted from the model.
-/

deriving instance DecidableEq for Except

namespace Replay

/-- The sentinel string substituted for scrapli-cfg session names
(`"__SCRAPLI_CFG_SESSION_NAME__"` in `replay.py`). -/
def scrapliCfgSessionName : String := "__SCRAPLI_CFG_SESSION_NAME__"

/-- The literal part of `SCRAPLI_CFG_SESSION_PATTERN = re.compile(r"scrapli_cfg_\d+")`. -/
def scrapliCfgLit : List Char := "scrapli_cfg_".toList

/-- Does the regex `scrapli_cfg_\d+` match at the head of `s`?
(the 12-character literal followed by at least one digit). -/
def cfgMatchHead (s : List Char) : Bool :=
  scrapliCfgLit.isPrefixOf s && ((s.drop 12).headD '_').isDigit

/-- `re.sub(SCRAPLI_CFG_SESSION_PATTERN, "__SCRAPLI_CFG_SESSION_NAME__", s)` on
char lists: left-to-right non-overlapping replacement, each match greedily
consuming the maximal digit run after the literal.  Structural recursion with
fuel; with `fuel ≥ s.length` the fuel never runs out. -/
def cfgSubChars : Nat → List Char → List Char
  | 0, s => s
  | _, [] => []
  | fuel + 1, c :: rest =>
    if cfgMatchHead (c :: rest) then
      scrapliCfgSessionName.toList ++
        cfgSubChars fuel (((c :: rest).drop 12).dropWhile Char.isDigit)
    else
      c :: cfgSubChars fuel rest

/-- `re.sub(SCRAPLI_CFG_SESSION_PATTERN, "__SCRAPLI_CFG_SESSION_NAME__", s)`. -/
def cfgSub (s : String) : String := String.mk (cfgSubChars s.toList.length s.toList)

/-- Truthiness of `re.search(SCRAPLI_CFG_SESSION_PATTERN, s)`. -/
def hasCfgMatch : List Char → Bool
  | [] => false
  | c :: rest => cfgMatchHead (c :: rest) || hasCfgMatch rest

/-- Truthiness of `re.search(SCRAPLI_CFG_SESSION_PATTERN, s)` on strings. -/
def cfgSearch (s : String) : Bool := hasCfgMatch s.toList

/-- Python's substring test `needle in hay` on char lists. -/
def listContainsSub (needle : List Char) : List Char → Bool
  | [] => needle.isEmpty
  | c :: rest => needle.isPrefixOf (c :: rest) || listContainsSub needle rest

/-- Python's substring test `needle in hay` on strings. -/
def strContainsSub (needle hay : String) : Bool := listContainsSub needle.toList hay.toList

/-- The exceptions of `scrapli_replay/exceptions.py` that the replay engine
raises — each carries only its message string — plus the bare `StopIteration`
that escapes `next(scrapli_inputs)` in the patched replay write method. -/
inductive ReplayError where
  | scrapliReplayException (msg : String)
  | connectionProfileError (msg : String)
  | expectedInputError (msg : String)
  | stopIteration
deriving DecidableEq, Repr

/-- `ConnectionProfile` dataclass of `replay.py` (dataclass equality is
field-by-field, mirrored by structure equality). -/
structure ConnectionProfile where
  host : String
  port : Nat
  authUsername : String
  authPassword : Bool
  authPrivateKey : String
  authPrivateKeyPassphrase : Bool
  authBypass : Bool
  transport : String
  authSecondary : Bool := false
deriving DecidableEq, Repr

/-- One serialized interaction (`channel_output`, `expected_channel_input`,
`expected_channel_input_redacted`); the expected input is `none` for the
trailing residual interaction. -/
structure Interaction where
  channelOutput : String
  expectedChannelInput : Option String
  expectedChannelInputRedacted : Bool
deriving DecidableEq, Repr

/-- One instance of a stored replay session: the recorded connection profile
plus the ordered interactions (`replay_session["connection_profile"]` /
`replay_session["interactions"]`). -/
structure ReplaySessionData where
  connectionProfile : ConnectionProfile
  interactions : List Interaction
deriving DecidableEq, Repr

/-- The mutable state of a `ScrapliReplayInstance` in replay mode: the
`device_outputs` and `scrapli_inputs` iterators (as the lists of their
remaining elements) and the `_scrapli_cfg_session` stash. -/
structure ReplayInstanceState where
  deviceOutputs : List String
  scrapliInputs : List (Option String × Bool)
  scrapliCfgSession : String
deriving DecidableEq, Repr

/-- `ScrapliReplayInstance._common_replay_mode`: validates the recorded
connection profile against the current one, then builds the two iterators. -/
def commonReplayMode (replaySession : ReplaySessionData)
    (connectionProfile : ConnectionProfile) :
    Except ReplayError (List String × List (Option String × Bool)) :=
  if replaySession.connectionProfile ≠ connectionProfile then
    .error (.connectionProfileError
      "recorded connection profile does not match current connection profile")
  else
    .ok (replaySession.interactions.map Interaction.channelOutput,
      replaySession.interactions.map fun i =>
        (i.expectedChannelInput, i.expectedChannelInputRedacted))

/-- `ScrapliReplayInstance.setup_replay_mode`: runs `_common_replay_mode` and,
on success, installs the patched read/write methods over the fresh iterators
(`_scrapli_cfg_session` starts as `""` from `__init__`). -/
def setupReplayMode (replaySession : ReplaySessionData)
    (connectionProfile : ConnectionProfile) :
    Except ReplayError ReplayInstanceState :=
  match commonReplayMode replaySession connectionProfile with
  | .error e => .error e
  | .ok (deviceOutputs, scrapliInputs) =>
    .ok { deviceOutputs := deviceOutputs, scrapliInputs := scrapliInputs,
          scrapliCfgSession := "" }

/-- The patched replay-mode `Channel.read`: pops the next recorded
`channel_output` and returns its encoding, except that an output containing the
cfg-session sentinel, with a session name stashed, returns the stashed name and
clears the stash; raises `ScrapliReplayException` when the iterator is
exhausted. -/
def patchedReadReplay (st : ReplayInstanceState) :
    Except ReplayError (String × ReplayInstanceState) :=
  match st.deviceOutputs with
  | [] => .error (.scrapliReplayException "No more device outputs to replay")
  | out :: restOutputs =>
    if strContainsSub scrapliCfgSessionName out ∧ st.scrapliCfgSession ≠ "" then
      .ok (st.scrapliCfgSession,
        { st with deviceOutputs := restOutputs, scrapliCfgSession := "" })
    else
      .ok (out, { st with deviceOutputs := restOutputs })

/-- The effective channel input of the patched replay-mode `Channel.write`:
`"REDACTED"` when redacted, else the cfg-session substitution when the pattern
matches, else the input unchanged. -/
def replayEffectiveInput (channelInput : String) (redacted : Bool) : String :=
  if redacted = true then "REDACTED"
  else if cfgSearch channelInput then cfgSub channelInput
  else channelInput

/-- The `_scrapli_cfg_session` stash after the patched replay-mode write: the
concrete input is stashed exactly when the write is not redacted and the input
matches the cfg-session pattern. -/
def replayStashAfterWrite (st : ReplayInstanceState) (channelInput : String)
    (redacted : Bool) : String :=
  if redacted = true then st.scrapliCfgSession
  else if cfgSearch channelInput then channelInput
  else st.scrapliCfgSession

/-- The patched replay-mode `Channel.write`: pops the next expected
`(input, redacted)` pair and compares it with the effective input and redaction
flag, raising `ScrapliReplayExpectedInputError` (with its fixed message) on any
difference.  The bare `StopIteration` of `next()` escapes when the iterator is
exhausted. -/
def patchedWriteReplay (st : ReplayInstanceState) (channelInput : String)
    (redacted : Bool) : Except ReplayError ReplayInstanceState :=
  match st.scrapliInputs with
  | [] => .error .stopIteration
  | (expectedInput, expectedRedacted) :: restInputs =>
    if expectedInput = some (replayEffectiveInput channelInput redacted) ∧
        expectedRedacted = redacted then
      .ok { st with scrapliInputs := restInputs,
                    scrapliCfgSession := replayStashAfterWrite st channelInput redacted }
    else
      .error (.expectedInputError
        "expected channel input does not match actual channel input")

/-- A channel operation issued by the client under replay. -/
inductive ChannelOp where
  | write (channelInput : String) (redacted : Bool)
  | read
deriving DecidableEq, Repr

/-- Run a sequence of channel operations against a replay-mode instance,
collecting the byte buffers returned by the reads; the first raised exception
aborts the run. -/
def runChannelOps (ops : List ChannelOp) (st : ReplayInstanceState) :
    Except ReplayError (List String × ReplayInstanceState) :=
  match ops with
  | [] => .ok ([], st)
  | .read :: rest =>
    match patchedReadReplay st with
    | .error e => .error e
    | .ok (buf, st') =>
      match runChannelOps rest st' with
      | .error e => .error e
      | .ok (outs, st'') => .ok (buf :: outs, st'')
  | .write channelInput redacted :: rest =>
    match patchedWriteReplay st channelInput redacted with
    | .error e => .error e
    | .ok st' => runChannelOps rest st'

/-- The mutable state of a `ScrapliReplayInstance` in record mode: the
`read_log` `BytesIO` buffer (cursor at the end while recording) and the
`write_log` list of `(input, redacted, read_log.tell())` entries. -/
structure RecordInstanceState where
  readLog : List Char
  writeLog : List (String × Bool × Nat)
deriving DecidableEq, Repr

/-- The patched record-mode `Channel.read`: performs the real transport read,
strips carriage returns (`buf.replace(b"\r", b"")`), appends the result to the
read log and returns it. -/
def patchedReadRecord (st : RecordInstanceState) (transportBuf : List Char) :
    List Char × RecordInstanceState :=
  let buf := transportBuf.filter fun c => c ≠ '\r'
  (buf, { st with readLog := st.readLog ++ buf })

/-- The patched record-mode `Channel.write`: appends
`(re.sub(cfg pattern, sentinel, input), redacted, read_log.tell())` to the
write log (and forwards the real input to the transport unchanged). -/
def patchedWriteRecord (st : RecordInstanceState) (channelInput : String)
    (redacted : Bool) : RecordInstanceState :=
  { st with writeLog := st.writeLog ++ [(cfgSub channelInput, redacted, st.readLog.length)] }

/-- `BytesIO.read(n)` from cursor `pos`: a negative count reads everything to
the end of the buffer; the cursor advances by the number of bytes returned. -/
def streamReadN (buf : List Char) (pos : Nat) (n : Int) : List Char × Nat :=
  let out := if n < 0 then buf.drop pos else (buf.drop pos).take n.toNat
  (out, pos + out.length)

/-- The per-write loop of `ScrapliReplay._serialize` for one instance: walks the
write log, reading `read_to_position - previous_read_to_position` bytes from the
read-log stream for each entry, decoding and applying the cfg-session
substitution; returns the interactions plus the final stream cursor and final
`previous_read_to_position`. -/
def serializeLoop (buf : List Char) :
    List (String × Bool × Nat) → Nat → Nat → List Interaction × Nat × Nat
  | [], pos, prev => ([], pos, prev)
  | (writeInput, redacted, readTo) :: rest, pos, prev =>
    let out := streamReadN buf pos ((readTo : Int) - (prev : Int))
    let channelOutput := cfgSub (String.mk out.1)
    let tail := serializeLoop buf rest out.2 readTo
    (⟨channelOutput, if redacted then some "REDACTED" else some writeInput, redacted⟩ :: tail.1,
      tail.2)

/-- `ScrapliReplay._serialize` restricted to one instance: the per-write loop,
then — when the final `previous_read_to_position` differs from
`read_log.tell()` (the buffer length, the cursor being at the end after
recording) — one final residual interaction holding the remaining read-log
bytes (decoded without the cfg-session substitution) with a null expected
input. -/
def serializeInstance (writeLog : List (String × Bool × Nat)) (readLogBuf : List Char) :
    List Interaction :=
  let readLogLen := readLogBuf.length
  let r := serializeLoop readLogBuf writeLog 0 0
  if r.2.2 ≠ readLogLen then
    r.1 ++ [⟨String.mk (readLogBuf.drop r.2.1), none, false⟩]
  else
    r.1

/-- `ReplayMode` enum of `replay.py`. -/
inductive ReplayMode where
  | record
  | replay
  | overwrite
deriving DecidableEq, Repr

/-- Parsing `ReplayMode[replay_mode.upper()]` for the three valid mode
strings. -/
def replayModeOfString (s : String) : ReplayMode :=
  if s = "record" then .record
  else if s = "replay" then .replay
  else .overwrite

/-- The replay-mode coercion of `ScrapliReplay.__init__`: an invalid mode
string raises; a requested `"record"` with an existing session file becomes
`"replay"`; any mode without a session file becomes `"record"`; and a loaded
replay session in which some instance has a missing or empty `interactions`
list falls back to record mode.  `sessionInstances` is the parsed session file
content (each instance's interactions; a missing `interactions` key loads as an
empty list, both being falsy in the source's `all(...)` check). -/
def effectiveReplayMode (requestedMode : String) (sessionExists : Bool)
    (sessionInstances : List (String × List Interaction)) :
    Except ReplayError ReplayMode :=
  if requestedMode ≠ "record" ∧ requestedMode ≠ "replay" ∧ requestedMode ≠ "overwrite" then
    .error (.scrapliReplayException "replay mode invalid")
  else
    let modeStr :=
      if requestedMode = "record" ∧ sessionExists then "replay"
      else if ¬ sessionExists then "record"
      else requestedMode
    let mode := replayModeOfString modeStr
    if mode = .replay ∧
        ¬ (sessionInstances.all fun inst => !inst.2.isEmpty) = true then
      .ok .record
    else
      .ok mode

/-- Well-formed write-log offsets relative to a read log of length `len`,
starting from a previous offset `prev`: offsets are nondecreasing and never
exceed the read-log length.  The recorder guarantees this: each offset is
`read_log.tell()` at write time, and the read log only grows. -/
def offsetsValid (len : Nat) : Nat → List (String × Bool × Nat) → Prop
  | _, [] => True
  | prev, (_, _, readTo) :: rest => prev ≤ readTo ∧ readTo ≤ len ∧ offsetsValid len readTo rest

/-- The final `previous_read_to_position` after walking a write log: the last
entry's offset, or `start` for an empty log. -/
def lastOffset (start : Nat) : List (String × Bool × Nat) → Nat
  | [] => start
  | (_, _, readTo) :: rest => lastOffset readTo rest

/-- Modelled from the spec's words (for the refinement direction of the
serialization claim): for each write-log entry, one `Interaction` whose
`channel_output` is the read-buffer slice from the previous entry's offset to
this entry's offset. -/
def sliceInteractions (buf : List Char) : List (String × Bool × Nat) → Nat → List Interaction
  | [], _ => []
  | (writeInput, redacted, readTo) :: rest, prev =>
    ⟨cfgSub (String.mk ((buf.drop prev).take (readTo - prev))),
      if redacted then some "REDACTED" else some writeInput, redacted⟩ ::
      sliceInteractions buf rest readTo

end Replay

namespace Server

/-- `OnOpenState` enum of `server.py` (`"pre_on_open"` / `"post_on_open"`). -/
inductive OnOpenState where
  | pre
  | post
deriving DecidableEq, Repr

/-- The string value of the `OnOpenState` enum member, used as the phase key
into the catalog dictionaries. -/
def OnOpenState.value : OnOpenState → String
  | .pre => "pre_on_open"
  | .post => "post_on_open"

/-- One step of an interactive event (`event_steps` entry); only the keys the
server session reads are modelled. -/
structure InteractStep where
  channelInput : String
  channelOutput : String
  hiddenInput : Bool
deriving DecidableEq, Repr

/-- An interactive catalog event; only the keys the server session reads are
modelled. -/
structure InteractiveEvent where
  eventSteps : List InteractStep
  resultPrivilegeLevel : String
deriving DecidableEq, Repr

/-- A standard catalog event; only the keys the server session reads are
modelled. -/
structure StandardEvent where
  channelOutput : String
  resultPrivilegeLevel : String
  closesConnection : Bool
deriving DecidableEq, Repr

/-- A catalog entry: the `"type"` discriminator selects standard vs
interactive. -/
inductive Event where
  | standard (e : StandardEvent)
  | interactive (e : InteractiveEvent)
deriving DecidableEq, Repr

/-- A string-keyed Python dictionary, as an association list. -/
abbrev Dict (α : Type) := List (String × α)

/-- Dictionary lookup (`d[k]` returns the value, `d.get(k)` returns this
option). -/
def dictGet {α : Type} (d : Dict α) (k : String) : Option α :=
  (d.find? fun p => p.1 = k).map fun p => p.2

/-- The collect-data a `BaseServer` loads and every session shares: `events`
(privilege level → phase → input → event), `unknown_events` (privilege level →
phase → standard event), `initial_privilege_level`, `privilege_level_prompts`
and `on_open_inputs`. -/
structure CollectData where
  events : Dict (Dict (Dict Event))
  unknownEvents : Dict (Dict StandardEvent)
  initialPrivilegeLevel : String
  privilegeLevelPrompts : Dict String
  onOpenInputs : List String
deriving DecidableEq, Repr

/-- Server-side exceptions: `ScrapliReplayServerError` (carrying its message),
plus Python `KeyError` / `IndexError` escaping a dictionary or list access. -/
inductive ServerError where
  | serverError (msg : String)
  | keyError
  | indexError
deriving DecidableEq, Repr

/-- The per-connection state of a `BaseSSHServerSession`, together with the
observable channel effects (the ordered `_chan.write` payloads, the echo
setting, and whether `_chan.exit(0)` was called). -/
structure SessionState where
  hideInput : Bool
  interacting : Bool
  interactingEvent : Option InteractiveEvent
  interactIndex : Int
  onOpenState : OnOpenState
  onOpenCommandsList : List String
  currentPrivilegeLevel : String
  chanOutput : List String
  chanEcho : Bool
  closed : Bool
deriving DecidableEq, Repr

/-- `BaseSSHServerSession.__init__`: fresh per-connection state over the shared
collect data (`_on_open_commands_list` is a copy of `on_open_inputs`, the
privilege level starts at `initial_privilege_level`, the on-open state at
`PRE`). -/
def sessionInit (cd : CollectData) : SessionState :=
  { hideInput := false
    interacting := false
    interactingEvent := none
    interactIndex := 0
    onOpenState := .pre
    onOpenCommandsList := cd.onOpenInputs
    currentPrivilegeLevel := cd.initialPrivilegeLevel
    chanOutput := []
    chanEcho := true
    closed := false }

/-- Python list indexing `l[i]`: a negative index counts from the end; an
out-of-range index raises `IndexError` (modelled as `none`). -/
def pyIndex {α : Type} (l : List α) (i : Int) : Option α :=
  let j : Int := if i < 0 then (l.length : Int) + i else i
  if j < 0 then none else l.get? j.toNat

/-- `BaseSSHServerSession._return_current_prompt` followed by `repaint_prompt`:
writes `privilege_level_prompts[current_privilege_level]` to the channel
(`KeyError` if the privilege level has no prompt entry). -/
def repaintPrompt (cd : CollectData) (st : SessionState) :
    Except ServerError SessionState :=
  match dictGet cd.privilegeLevelPrompts st.currentPrivilegeLevel with
  | none => .error .keyError
  | some p => .ok { st with chanOutput := st.chanOutput ++ [p] }

/-- `BaseSSHServerSession.unknown_event`: writes the unknown-event output for
the current `(privilege level, on-open phase)` pair, closes the channel when
the event says so, and sets the current privilege level to the event's
`result_privilege_level`; the on-open phase and checklist are untouched.
A missing catalog bucket raises `KeyError` here, at request time. -/
def unknownEvent (cd : CollectData) (st : SessionState) :
    Except ServerError SessionState :=
  match dictGet cd.unknownEvents st.currentPrivilegeLevel with
  | none => .error .keyError
  | some phases =>
    match dictGet phases st.onOpenState.value with
    | none => .error .keyError
    | some event =>
      let st := { st with chanOutput := st.chanOutput ++ [event.channelOutput] }
      let st := if event.closesConnection = true then { st with closed := true } else st
      .ok { st with currentPrivilegeLevel := event.resultPrivilegeLevel }

/-- `BaseSSHServerSession.standard_event`: a closing event writes `""`, closes
the channel and resets privilege level, on-open phase and checklist to their
initial values; otherwise the event output is written, the privilege level is
updated from the event, a matching pending on-open command is removed from the
checklist (first occurrence), and the phase flips to `POST` once the checklist
is empty. -/
def standardEvent (cd : CollectData) (st : SessionState) (channelInput : String)
    (event : StandardEvent) : SessionState :=
  if event.channelOutput = "__CLOSES_CONNECTION__" ∨ event.closesConnection = true then
    { st with chanOutput := st.chanOutput ++ [""]
              closed := true
              currentPrivilegeLevel := cd.initialPrivilegeLevel
              onOpenState := .pre
              onOpenCommandsList := cd.onOpenInputs }
  else
    let st := { st with chanOutput := st.chanOutput ++ [event.channelOutput]
                        currentPrivilegeLevel := event.resultPrivilegeLevel }
    let st :=
      if channelInput ∈ st.onOpenCommandsList then
        { st with onOpenCommandsList := st.onOpenCommandsList.erase channelInput }
      else st
    if st.onOpenCommandsList.isEmpty then { st with onOpenState := .post } else st

/-- The tail of one interactive step once the step to emit is fixed: write the
step's output; on the final step leave dialog mode and adopt the dialog's
resulting privilege level; otherwise advance the index and hide the echo when
the next step has hidden input. -/
def interactiveStepFinish (st : SessionState) (iev : InteractiveEvent)
    (step : InteractStep) : Except ServerError SessionState :=
  let st := { st with chanOutput := st.chanOutput ++ [step.channelOutput] }
  if st.interactIndex + 1 = (iev.eventSteps.length : Int) then
    .ok { st with currentPrivilegeLevel := iev.resultPrivilegeLevel
                  interacting := false
                  interactingEvent := none
                  interactIndex := 0 }
  else
    let st := { st with interactIndex := st.interactIndex + 1 }
    match pyIndex iev.eventSteps st.interactIndex with
    | none => .error .indexError
    | some next =>
      if next.hiddenInput then
        .ok { st with chanEcho := false, hideInput := true }
      else
        .ok st

/-- `BaseSSHServerSession.interactive_event`: raises when no interactive event
is pending; re-enables the echo if it was hidden; then, at the current step: a
hidden-input step whose input is not `"scrapli"` decrements the index (Python
indexing, so index `0` wraps to the last step) and re-emits that step's output;
a non-hidden-input mismatch aborts the dialog (resetting the interacting flag,
event and index) and falls through to the unknown-input handler; a match emits
the step output and advances via `interactiveStepFinish`. -/
def interactiveEvent (cd : CollectData) (st : SessionState) (channelInput : String) :
    Except ServerError SessionState :=
  match st.interactingEvent with
  | none => .error (.serverError
      "attempting to handle interactive event but not in interacting mode. this should never happen, definitely a bug")
  | some iev =>
    let st := if st.hideInput then { st with chanEcho := true, hideInput := false } else st
    match pyIndex iev.eventSteps st.interactIndex with
    | none => .error .indexError
    | some step =>
      if step.hiddenInput then
        if channelInput ≠ "scrapli" then
          let st := { st with interactIndex := st.interactIndex - 1 }
          match pyIndex iev.eventSteps st.interactIndex with
          | none => .error .indexError
          | some step' => interactiveStepFinish st iev step'
        else
          interactiveStepFinish st iev step
      else
        if channelInput ≠ step.channelInput then
          let st := { st with interacting := false, interactingEvent := none,
                              interactIndex := 0 }
          unknownEvent cd st
        else
          interactiveStepFinish st iev step

/-- Python `str.rstrip()` (strip trailing whitespace). -/
def rstrip (s : String) : String :=
  String.mk ((s.toList.reverse.dropWhile fun c =>
    c = ' ' ∨ c = '\t' ∨ c = '\n' ∨ c = '\r' ∨ c = '\x0b' ∨ c = '\x0c').reverse)

/-- `BaseSSHServerSession.data_received`: a bare return repaints the prompt;
inside a dialog the input is dispatched to the interactive handler; otherwise
the input is looked up under the current `(privilege level, phase)` in the
event catalog — a standard hit runs `standard_event`, an interactive hit enters
dialog mode at step 0 and processes the first step immediately, and a miss runs
`unknown_event`.  A privilege level or phase bucket missing from `events`
raises `KeyError` at request time. -/
def dataReceived (cd : CollectData) (st : SessionState) (data : String) :
    Except ServerError SessionState :=
  let channelInput := if data = "\n" then data else rstrip data
  if st.interacting then
    interactiveEvent cd st channelInput
  else if channelInput = "\n" then
    repaintPrompt cd st
  else
    match dictGet cd.events st.currentPrivilegeLevel with
    | none => .error .keyError
    | some phases =>
      match dictGet phases st.onOpenState.value with
      | none => .error .keyError
      | some inputEvents =>
        match dictGet inputEvents channelInput with
        | some (.standard e) => .ok (standardEvent cd st channelInput e)
        | some (.interactive iev) =>
          interactiveEvent cd
            { st with interacting := true, interactingEvent := some iev } channelInput
        | none => unknownEvent cd st

/-- Run a sequence of received lines through `dataReceived`; the first raised
exception aborts the run. -/
def runDataReceived (cd : CollectData) (st : SessionState) :
    List String → Except ServerError SessionState
  | [] => .ok st
  | d :: rest =>
    match dataReceived cd st d with
    | .error e => .error e
    | .ok st' => runDataReceived cd st' rest

/-- `BaseServer.__init__`: parses the collect-data YAML file and stores the
result.  The source performs no validation of the parsed catalog — no check
that every privilege level has both phase buckets — so loading never raises a
configuration error beyond the YAML parse itself (external). -/
def baseServerInit (cd : CollectData) : Except ServerError CollectData :=
  .ok cd

/-- Fixture: a standard, non-closing unknown-input event. -/
def unknownEvt : StandardEvent := ⟨"unknown!", "exec", false⟩

/-- Fixture: an interactive privilege-escalation dialog — `"enable"` prompts
for a password, the hidden password step answers with the privileged prompt. -/
def enableDialog : InteractiveEvent :=
  ⟨[⟨"enable", "Password: ", false⟩, ⟨"scrapli", "device-priv#", true⟩], "priv"⟩

/-- Fixture: a catalog whose only pre-on-open event is the `enableDialog`
interactive event. -/
def dialogData : CollectData :=
  { events := [("exec", [("pre_on_open", [("enable", .interactive enableDialog)]),
                         ("post_on_open", [])])]
    unknownEvents := [("exec", [("pre_on_open", unknownEvt), ("post_on_open", unknownEvt)])]
    initialPrivilegeLevel := "exec"
    privilegeLevelPrompts := [("exec", "device#")]
    onOpenInputs := [] }

/-- Fixture: a catalog where the privilege level `"exec"` is missing its
`post_on_open` bucket in `unknown_events`, while the pair
`("exec", post_on_open)` is reachable: the standard event for `"foo"`
completes the (empty) on-open checklist, flipping the phase to post. -/
def missingBucketData : CollectData :=
  { events := [("exec", [("pre_on_open", [("foo", .standard ⟨"ok-output", "exec", false⟩)]),
                         ("post_on_open", [])])]
    unknownEvents := [("exec", [("pre_on_open", unknownEvt)])]
    initialPrivilegeLevel := "exec"
    privilegeLevelPrompts := [("exec", "device#")]
    onOpenInputs := [] }

/-- Fixture: a catalog with the single on-open command `"disable paging"`,
served as a standard, non-closing event at the initial privilege level. -/
def pagingData : CollectData :=
  { events := [("exec", [("pre_on_open",
                          [("disable paging", .standard ⟨"", "exec", false⟩)]),
                         ("post_on_open", [])])]
    unknownEvents := [("exec", [("pre_on_open", unknownEvt), ("post_on_open", unknownEvt)])]
    initialPrivilegeLevel := "exec"
    privilegeLevelPrompts := [("exec", "device#")]
    onOpenInputs := ["disable paging"] }

/-- Fixture: a catalog whose unknown-input event closes the connection. -/
def closingUnknownData : CollectData :=
  { events := []
    unknownEvents := [("exec", [("pre_on_open", ⟨"connection closed", "lowpriv", true⟩)])]
    initialPrivilegeLevel := "exec"
    privilegeLevelPrompts := [("exec", "device#")]
    onOpenInputs := ["disable paging"] }

end Server

open Replay Server

/-! ## Helper lemmas -/

theorem cfgMatchHead_length {l : List Char} (h : cfgMatchHead l = true) :
    13 ≤ l.length := by
  unfold cfgMatchHead at h
  rw [Bool.and_eq_true] at h
  obtain ⟨h1, h2⟩ := h
  have hpre : scrapliCfgLit <+: l := List.isPrefixOf_iff_prefix.mp h1
  have h12 : scrapliCfgLit.length = 12 := by decide
  have hlen : 12 ≤ l.length := h12 ▸ hpre.length_le
  by_cases hd : l.drop 12 = []
  · rw [hd] at h2
    exact absurd h2 (by decide)
  · have hpos : 0 < (l.drop 12).length := List.length_pos.mpr hd
    rw [List.length_drop] at hpos
    omega

theorem hasCfgMatch_eq_false_of_short : ∀ {l : List Char}, l.length ≤ 12 →
    hasCfgMatch l = false := by
  intro l
  induction l with
  | nil => intro _; rfl
  | cons c rest ih =>
    intro h
    rw [List.length_cons] at h
    unfold hasCfgMatch
    rw [Bool.or_eq_false_iff]
    refine ⟨?_, ih (by omega)⟩
    by_contra hb
    rw [Bool.not_eq_false] at hb
    have := cfgMatchHead_length hb
    rw [List.length_cons] at this
    omega

theorem cfgSubChars_eq_of_no_match (fuel : Nat) :
    ∀ l : List Char, hasCfgMatch l = false → cfgSubChars fuel l = l := by
  induction fuel with
  | zero => intro l _; cases l <;> rfl
  | succ n ih =>
    intro l h
    cases l with
    | nil => rfl
    | cons c rest =>
      unfold hasCfgMatch at h
      rw [Bool.or_eq_false_iff] at h
      show cfgSubChars (n + 1) (c :: rest) = c :: rest
      unfold cfgSubChars
      rw [if_neg (by simp [h.1]), ih rest h.2]

theorem cfgSub_mk_of_short {l : List Char} (h : l.length ≤ 12) :
    cfgSub (String.mk l) = String.mk l :=
  congrArg String.mk (cfgSubChars_eq_of_no_match l.length l (hasCfgMatch_eq_false_of_short h))

theorem pyIndex_of_nonneg {α : Type} (l : List α) {i : Int} (hpos : 0 ≤ i) :
    pyIndex l i = l.get? i.toNat := by
  simp only [pyIndex]
  rw [if_neg (by omega), if_neg (by omega)]

theorem pyIndex_some_lt {α : Type} {l : List α} {i : Int} {a : α}
    (h : pyIndex l i = some a) (hpos : 0 ≤ i) : i < (l.length : Int) := by
  rw [pyIndex_of_nonneg l hpos] at h
  have hlt := (List.get?_eq_some.mp h).1
  omega

theorem serializeLoop_spec (buf : List Char) :
    ∀ (writeLog : List (String × Bool × Nat)) (prev : Nat),
      offsetsValid buf.length prev writeLog →
      serializeLoop buf writeLog prev prev =
        (sliceInteractions buf writeLog prev,
          lastOffset prev writeLog, lastOffset prev writeLog) := by
  intro writeLog
  induction writeLog with
  | nil => intro prev _; rfl
  | cons entry rest ih =>
    intro prev hvalid
    obtain ⟨wi, red, readTo⟩ := entry
    obtain ⟨h1, h2, h3⟩ := hvalid
    have hout : streamReadN buf prev ((readTo : Int) - (prev : Int)) =
        ((buf.drop prev).take (readTo - prev), readTo) := by
      simp only [streamReadN]
      rw [if_neg (by omega)]
      have htn : ((readTo : Int) - (prev : Int)).toNat = readTo - prev := by omega
      rw [htn]
      have hlen : ((buf.drop prev).take (readTo - prev)).length = readTo - prev := by
        rw [List.length_take, List.length_drop]
        omega
      rw [hlen]
      have hsum : prev + (readTo - prev) = readTo := by omega
      rw [hsum]
    show serializeLoop buf ((wi, red, readTo) :: rest) prev prev = _
    unfold serializeLoop
    rw [hout]
    simp only [ih readTo h3]
    simp [sliceInteractions, lastOffset]

theorem sliceInteractions_length (buf : List Char) :
    ∀ (writeLog : List (String × Bool × Nat)) (prev : Nat),
      (sliceInteractions buf writeLog prev).length = writeLog.length := by
  intro writeLog
  induction writeLog with
  | nil => intro _; rfl
  | cons entry rest ih =>
    intro prev
    obtain ⟨wi, red, readTo⟩ := entry
    show (sliceInteractions buf ((wi, red, readTo) :: rest) prev).length = _
    unfold sliceInteractions
    rw [List.length_cons, List.length_cons, ih readTo]

/-! ## Claims -/

/-- C1 (counterexample): the claim says the replay-mode write raises an
`UnexpectedInputError` "carrying both the expected and the actual values".  In
the source the exception carries only the fixed message
`"expected channel input does not match actual channel input"`: two mismatching
writes with different actual inputs (`"b"` and `"c"` against the recorded
`"a"`) raise literally identical error values, so the error cannot carry the
actual (or expected) values. -/
theorem claim_C1_counterexample :
    patchedWriteReplay ⟨[], [(some "a", false)], ""⟩ "b" false =
      patchedWriteReplay ⟨[], [(some "a", false)], ""⟩ "c" false ∧
    patchedWriteReplay ⟨[], [(some "a", false)], ""⟩ "b" false =
      .error (.expectedInputError
        "expected channel input does not match actual channel input") ∧
    ("b" : String) ≠ "c" := by
  refine ⟨by decide, by decide, by decide⟩

/-- C1 (amended): in replay mode, if the client's write at position i — after
applying the same substitutions as at capture time (`"REDACTED"` when the
redacted flag is true, the cfg-session substitution otherwise when the pattern
matches) — differs from the recorded expected input, or the redacted flag
differs from the recorded one, the write raises `UnexpectedInputError` with its
fixed diagnostic message (it does not carry the expected and actual values),
and the whole run aborts there, before any output for position i is returned by
a read. -/
theorem claim_C1_theorem (st : ReplayInstanceState)
    (expectedInput : Option String) (expectedRedacted : Bool)
    (restInputs : List (Option String × Bool))
    (channelInput : String) (redacted : Bool)
    (hpop : st.scrapliInputs = (expectedInput, expectedRedacted) :: restInputs)
    (hmismatch : expectedInput ≠ some (replayEffectiveInput channelInput redacted) ∨
      expectedRedacted ≠ redacted) :
    ∀ ops : List ChannelOp,
      runChannelOps (.write channelInput redacted :: ops) st =
        .error (.expectedInputError
          "expected channel input does not match actual channel input") := by
  intro ops
  have hw : patchedWriteReplay st channelInput redacted =
      .error (.expectedInputError
        "expected channel input does not match actual channel input") := by
    unfold patchedWriteReplay
    rw [hpop]
    exact if_neg (by tauto)
  unfold runChannelOps
  rw [hw]

/-- C1 witness: the amended theorem at the concrete recorded pair
`(some "a", false)`, actual write `"b"`, with a pending read. -/
theorem claim_C1_witness :
    runChannelOps [.write "b" false, .read] ⟨["out"], [(some "a", false)], ""⟩ =
      .error (.expectedInputError
        "expected channel input does not match actual channel input") :=
  claim_C1_theorem ⟨["out"], [(some "a", false)], ""⟩ (some "a") false [] "b" false rfl
    (.inl (by decide)) [.read]

/-- C3 (counterexample): the claim says each replay-mode read "pops the next
recorded channel_output, encodes it to bytes, and returns it".  When the
recorded output contains the cfg-session sentinel and a concrete session name
is stashed, the read returns the stashed name instead of the recorded
output. -/
theorem claim_C3_counterexample :
    patchedReadReplay ⟨["__SCRAPLI_CFG_SESSION_NAME__"], [], "scrapli_cfg_99"⟩ =
      .ok ("scrapli_cfg_99", ⟨[], [], ""⟩) ∧
    ("scrapli_cfg_99" : String) ≠ "__SCRAPLI_CFG_SESSION_NAME__" := by
  refine ⟨by decide, by decide⟩

/-- C3 (amended): in replay mode, each read call pops the next recorded
channel_output and returns its encoding — except that an output containing the
cfg-session sentinel while a concrete session name is stashed returns the
stashed name instead — and a read attempted after the last recorded output has
been consumed raises `ReplayExhaustedError` (the `ScrapliReplayException` with
message "No more device outputs to replay"). -/
theorem claim_C3_theorem (st : ReplayInstanceState) :
    (st.deviceOutputs = [] →
      patchedReadReplay st =
        .error (.scrapliReplayException "No more device outputs to replay")) ∧
    (∀ out rest, st.deviceOutputs = out :: rest →
      ¬ (strContainsSub scrapliCfgSessionName out = true ∧ st.scrapliCfgSession ≠ "") →
      patchedReadReplay st = .ok (out, { st with deviceOutputs := rest })) ∧
    (∀ out rest, st.deviceOutputs = out :: rest →
      strContainsSub scrapliCfgSessionName out = true → st.scrapliCfgSession ≠ "" →
      patchedReadReplay st =
        .ok (st.scrapliCfgSession,
          { st with deviceOutputs := rest, scrapliCfgSession := "" })) := by
  refine ⟨?_, ?_, ?_⟩
  · intro hnil
    unfold patchedReadReplay
    rw [hnil]
  · intro out rest hcons hnot
    unfold patchedReadReplay
    rw [hcons]
    exact if_neg hnot
  · intro out rest hcons hsub hstash
    unfold patchedReadReplay
    rw [hcons]
    exact if_pos ⟨hsub, hstash⟩

/-- C3 witness: the amended theorem at an exhausted state, at a plain recorded
output, and at a sentinel output with a stashed session name. -/
theorem claim_C3_witness :
    patchedReadReplay ⟨[], [], ""⟩ =
      .error (.scrapliReplayException "No more device outputs to replay") ∧
    patchedReadReplay ⟨["device#"], [], ""⟩ = .ok ("device#", ⟨[], [], ""⟩) ∧
    patchedReadReplay ⟨["x__SCRAPLI_CFG_SESSION_NAME__y"], [], "scrapli_cfg_7"⟩ =
      .ok ("scrapli_cfg_7", ⟨[], [], ""⟩) :=
  ⟨( claim_C3_theorem ⟨[], [], ""⟩).1 rfl,
   ( claim_C3_theorem ⟨["device#"], [], ""⟩).2.1 "device#" [] rfl (by decide),
   ( claim_C3_theorem ⟨["x__SCRAPLI_CFG_SESSION_NAME__y"], [], "scrapli_cfg_7"⟩).2.2
     "x__SCRAPLI_CFG_SESSION_NAME__y" [] rfl (by decide) (by decide)⟩

/-- C4: two `ConnectionProfile`s are equal iff all of their fields match (so
two profiles differing only in port are never equal), and setting up replay
mode against a recorded profile that does not equal the currently observed one
raises `ProfileMismatch` (`ScrapliReplayConnectionProfileError`) before any
interaction is consumed: the error is produced before the interaction
iterators are even built, and does not depend on the recorded interactions at
all. -/
theorem claim_C4_theorem :
    (∀ a b : ConnectionProfile, a = b ↔
      a.host = b.host ∧ a.port = b.port ∧ a.authUsername = b.authUsername ∧
      a.authPassword = b.authPassword ∧ a.authPrivateKey = b.authPrivateKey ∧
      a.authPrivateKeyPassphrase = b.authPrivateKeyPassphrase ∧
      a.authBypass = b.authBypass ∧ a.transport = b.transport ∧
      a.authSecondary = b.authSecondary) ∧
    (∀ a b : ConnectionProfile,
      a.host = b.host → a.authUsername = b.authUsername →
      a.authPassword = b.authPassword → a.authPrivateKey = b.authPrivateKey →
      a.authPrivateKeyPassphrase = b.authPrivateKeyPassphrase →
      a.authBypass = b.authBypass → a.transport = b.transport →
      a.authSecondary = b.authSecondary → a.port ≠ b.port → a ≠ b) ∧
    (∀ (session : ReplaySessionData) (profile : ConnectionProfile),
      session.connectionProfile ≠ profile →
      setupReplayMode session profile =
        .error (.connectionProfileError
          "recorded connection profile does not match current connection profile")) ∧
    (∀ (p profile : ConnectionProfile) (i1 i2 : List Interaction),
      p ≠ profile →
      commonReplayMode ⟨p, i1⟩ profile = commonReplayMode ⟨p, i2⟩ profile) := by
  refine ⟨?_, ?_, ?_, ?_⟩
  · intro a b
    cases a
    cases b
    simp [ConnectionProfile.mk.injEq]
  · intro a b _ _ _ _ _ _ _ _ hport heq
    exact hport (congrArg ConnectionProfile.port heq)
  · intro session profile hne
    unfold setupReplayMode commonReplayMode
    rw [if_pos hne]
  · intro p profile i1 i2 hne
    unfold commonReplayMode
    rw [if_pos hne, if_pos hne]

/-- C4 witness: two concrete profiles differing only in port are unequal, and
replay setup against the mismatched profile raises the profile error. -/
theorem claim_C4_witness :
    (⟨"c3560", 22, "user", true, "", false, false, "ssh", false⟩ : ConnectionProfile) ≠
      ⟨"c3560", 23, "user", true, "", false, false, "ssh", false⟩ ∧
    setupReplayMode
      ⟨⟨"c3560", 22, "user", true, "", false, false, "ssh", false⟩, []⟩
      ⟨"c3560", 23, "user", true, "", false, false, "ssh", false⟩ =
      .error (.connectionProfileError
        "recorded connection profile does not match current connection profile") :=
  ⟨claim_C4_theorem.2.1 _ _ rfl rfl rfl rfl rfl rfl rfl rfl (by decide),
   claim_C4_theorem.2.2.1 _ _ (by decide)⟩

/-- C2: serialize() walks the write log in order and, for each entry, emits
one Interaction whose channel_output is the read-buffer slice from the previous
entry's offset to this entry's offset (the stream-cursor loop equals the
spec-modelled `sliceInteractions`, one interaction per write-log entry);
concretely, for the write log `[("A", false, 5), ("B", false, 12)]` over any
12-byte read buffer it yields exactly the two interactions whose
channel_output values are the byte slices `[0:5]` and `[5:12]`; and if
read-buffer bytes remain past the last write's offset, it emits exactly one
final Interaction with null expected input containing the remainder. -/
theorem claim_C2_theorem :
    (∀ (writeLog : List (String × Bool × Nat)) (buf : List Char),
      offsetsValid buf.length 0 writeLog →
      (serializeLoop buf writeLog 0 0).1 = sliceInteractions buf writeLog 0 ∧
      (serializeLoop buf writeLog 0 0).1.length = writeLog.length) ∧
    (∀ buf : List Char, buf.length = 12 →
      serializeInstance [("A", false, 5), ("B", false, 12)] buf =
        [⟨String.mk (buf.take 5), some "A", false⟩,
         ⟨String.mk ((buf.drop 5).take 7), some "B", false⟩]) ∧
    (∀ (writeLog : List (String × Bool × Nat)) (buf : List Char),
      offsetsValid buf.length 0 writeLog →
      lastOffset 0 writeLog < buf.length →
      serializeInstance writeLog buf =
        sliceInteractions buf writeLog 0 ++
          [⟨String.mk (buf.drop (lastOffset 0 writeLog)), none, false⟩]) := by
  refine ⟨?_, ?_, ?_⟩
  · intro writeLog buf hvalid
    rw [serializeLoop_spec buf writeLog 0 hvalid]
    exact ⟨rfl, sliceInteractions_length buf writeLog 0⟩
  · intro buf h12
    have hvalid : offsetsValid buf.length 0 [("A", false, 5), ("B", false, 12)] := by
      rw [h12]
      exact ⟨by omega, by omega, by omega, by omega, trivial⟩
    have hloop := serializeLoop_spec buf [("A", false, 5), ("B", false, 12)] 0 hvalid
    unfold serializeInstance
    rw [hloop]
    have hlast : lastOffset 0 [("A", false, 5), ("B", false, 12)] = 12 := rfl
    simp only [hlast]
    rw [if_neg (by simp [h12])]
    have hc1 : cfgSub (String.mk ((buf.drop 0).take (5 - 0))) =
        String.mk ((buf.drop 0).take (5 - 0)) :=
      cfgSub_mk_of_short (by rw [List.length_take, List.length_drop]; omega)
    have hc2 : cfgSub (String.mk ((buf.drop 5).take (12 - 5))) =
        String.mk ((buf.drop 5).take (12 - 5)) :=
      cfgSub_mk_of_short (by rw [List.length_take, List.length_drop]; omega)
    simp only [sliceInteractions, hc1, hc2]
    simp
  · intro writeLog buf hvalid hlast
    have hne : lastOffset 0 writeLog ≠ buf.length := by omega
    simp [serializeInstance, serializeLoop_spec buf writeLog 0 hvalid, hne]

/-- C2 witness: both the concrete 12-byte scenario and the residual case at the
explicit buffer `"0123456789ab"`. -/
theorem claim_C2_witness :
    serializeInstance [("A", false, 5), ("B", false, 12)] "0123456789ab".toList =
      [⟨"01234", some "A", false⟩, ⟨"56789ab", some "B", false⟩] ∧
    serializeInstance [("A", false, 5)] "0123456789ab".toList =
      [⟨"01234", some "A", false⟩, ⟨"56789ab", none, false⟩] := by
  constructor
  · rw [claim_C2_theorem.2.1 "0123456789ab".toList (by decide)]
    decide
  · rw [claim_C2_theorem.2.2 [("A", false, 5)] "0123456789ab".toList
      ⟨by decide, by decide, trivial⟩ (by decide)]
    decide

/-- C8: `ScrapliReplay.__init__` coerces the effective mode from the requested
one: a requested "record" when a session file exists becomes replay (provided
the loaded session has interactions for every instance); any valid requested
mode with no session file becomes record; a loaded replay session in which
some instance has no interactions falls back to record; and replay mode is
entered only when a session file with interactions for every instance
exists. -/
theorem claim_C8_theorem :
    (∀ s : List (String × List Interaction),
      (s.all fun inst => !inst.2.isEmpty) = true →
      effectiveReplayMode "record" true s = .ok .replay) ∧
    (∀ (m : String) (s : List (String × List Interaction)),
      m = "record" ∨ m = "replay" ∨ m = "overwrite" →
      effectiveReplayMode m false s = .ok .record) ∧
    (∀ (m : String) (s : List (String × List Interaction)),
      m = "record" ∨ m = "replay" →
      (s.all fun inst => !inst.2.isEmpty) = false →
      effectiveReplayMode m true s = .ok .record) ∧
    (∀ (m : String) (e : Bool) (s : List (String × List Interaction)),
      effectiveReplayMode m e s = .ok .replay →
      e = true ∧ (s.all fun inst => !inst.2.isEmpty) = true) := by
  refine ⟨?_, ?_, ?_, ?_⟩
  · intro s hall
    simp_all [effectiveReplayMode, replayModeOfString]
    intro x hx
    exact hall x [] hx rfl
  · intro m s hm
    rcases hm with rfl | rfl | rfl <;>
      simp [effectiveReplayMode, replayModeOfString]
  · intro m s hm hall
    rcases hm with rfl | rfl <;>
      simp_all [effectiveReplayMode, replayModeOfString]
  · intro m e s h
    by_cases hm1 : m = "record"
    · subst hm1
      cases e <;> by_cases hall : (s.all fun inst => !inst.2.isEmpty) = true <;>
        (simp_all [effectiveReplayMode, replayModeOfString]; try exact hall)
    · by_cases hm2 : m = "replay"
      · subst hm2
        cases e <;> by_cases hall : (s.all fun inst => !inst.2.isEmpty) = true <;>
          (simp_all [effectiveReplayMode, replayModeOfString]; try exact hall)
      · by_cases hm3 : m = "overwrite"
        · subst hm3
          cases e <;> by_cases hall : (s.all fun inst => !inst.2.isEmpty) = true <;>
            simp_all [effectiveReplayMode, replayModeOfString]
        · simp [effectiveReplayMode, hm1, hm2, hm3] at h

/-- C8 witness: the mode table at concrete sessions. -/
theorem claim_C8_witness :
    effectiveReplayMode "record" true [("i", [Interaction.mk "o" (some "c") false])] =
      .ok .replay ∧
    effectiveReplayMode "replay" false [] = .ok .record ∧
    effectiveReplayMode "replay" true [("i", [])] = .ok .record ∧
    (true = true ∧
      ([("i", [Interaction.mk "o" (some "c") false])].all
        fun inst => !inst.2.isEmpty) = true) :=
  ⟨claim_C8_theorem.1 [("i", [Interaction.mk "o" (some "c") false])] (by decide),
   claim_C8_theorem.2.1 "replay" [] (.inr (.inl rfl)),
   claim_C8_theorem.2.2.1 "replay" [("i", [])] (.inr rfl) (by decide),
   claim_C8_theorem.2.2.2 "record" true [("i", [Interaction.mk "o" (some "c") false])]
     (claim_C8_theorem.1 [("i", [Interaction.mk "o" (some "c") false])] (by decide))⟩

/-- C9 (counterexample): the claim says every serialized channel_output has the
cfg-session substitution applied; but the trailing residual interaction (bytes
past the last write's offset) is serialized without it: for an empty write log
and read buffer `"scrapli_cfg_1"` the residual output still matches the
pattern, while the substitution would have produced the sentinel. -/
theorem claim_C9_counterexample :
    serializeInstance [] "scrapli_cfg_1".toList = [⟨"scrapli_cfg_1", none, false⟩] ∧
    cfgSearch "scrapli_cfg_1" = true ∧
    cfgSub "scrapli_cfg_1" = "__SCRAPLI_CFG_SESSION_NAME__" := by
  refine ⟨by decide, by decide, by decide⟩

/-- C9 (amended): in record mode every written input has the cfg-session
pattern replaced by the sentinel in the write log; every per-write serialized
channel_output has the same substitution applied (the trailing residual
interaction does not); in replay mode a non-redacted written input matching
the pattern is compared after the same substitution and its concrete name is
stashed; and the next read whose recorded output contains the sentinel returns
the stashed concrete name and clears the stash. -/
theorem claim_C9_theorem :
    (∀ (st : RecordInstanceState) (channelInput : String) (redacted : Bool),
      (patchedWriteRecord st channelInput redacted).writeLog =
        st.writeLog ++ [(cfgSub channelInput, redacted, st.readLog.length)]) ∧
    (∀ (buf : List Char) (writeLog : List (String × Bool × Nat)) (pos prev : Nat),
      ∀ i ∈ (serializeLoop buf writeLog pos prev).1,
        ∃ raw : List Char, i.channelOutput = cfgSub (String.mk raw)) ∧
    (∀ (st : ReplayInstanceState) (channelInput : String)
      (rest : List (Option String × Bool)),
      cfgSearch channelInput = true →
      st.scrapliInputs = (some (cfgSub channelInput), false) :: rest →
      patchedWriteReplay st channelInput false =
        .ok { st with scrapliInputs := rest, scrapliCfgSession := channelInput }) ∧
    (∀ (st : ReplayInstanceState) (out : String) (rest : List String),
      st.deviceOutputs = out :: rest →
      strContainsSub scrapliCfgSessionName out = true →
      st.scrapliCfgSession ≠ "" →
      patchedReadReplay st =
        .ok (st.scrapliCfgSession,
          { st with deviceOutputs := rest, scrapliCfgSession := "" })) := by
  refine ⟨?_, ?_, ?_, ?_⟩
  · intro st channelInput redacted
    rfl
  · intro buf writeLog
    induction writeLog with
    | nil =>
      intro pos prev i hi
      simp [serializeLoop] at hi
    | cons entry rest ih =>
      intro pos prev i hi
      obtain ⟨wi, red, readTo⟩ := entry
      simp only [serializeLoop] at hi
      rcases List.mem_cons.mp hi with h | h
      · exact ⟨(streamReadN buf pos ((readTo : Int) - (prev : Int))).1, by rw [h]⟩
      · exact ih _ _ i h
  · intro st channelInput rest hsearch hpop
    have heff : replayEffectiveInput channelInput false = cfgSub channelInput := by
      simp [replayEffectiveInput, hsearch]
    have hstash : replayStashAfterWrite st channelInput false = channelInput := by
      simp [replayStashAfterWrite, hsearch]
    simp [patchedWriteReplay, hpop, heff, hstash]
  · intro st out rest hcons hsub hstash
    unfold patchedReadReplay
    rw [hcons]
    exact if_pos ⟨hsub, hstash⟩

/-- C9 witness: the record/replay round trip of the concrete session name
`"scrapli_cfg_1"`. -/
theorem claim_C9_witness :
    (patchedWriteRecord ⟨"banner".toList, []⟩ "scrapli_cfg_1" false).writeLog =
      [("__SCRAPLI_CFG_SESSION_NAME__", false, 6)] ∧
    patchedWriteReplay ⟨[], [(some "__SCRAPLI_CFG_SESSION_NAME__", false)], ""⟩
        "scrapli_cfg_1" false = .ok ⟨[], [], "scrapli_cfg_1"⟩ ∧
    patchedReadReplay ⟨["__SCRAPLI_CFG_SESSION_NAME__"], [], "scrapli_cfg_1"⟩ =
      .ok ("scrapli_cfg_1", ⟨[], [], ""⟩) := by
  refine ⟨?_, ?_, ?_⟩
  · rw [claim_C9_theorem.1 ⟨"banner".toList, []⟩ "scrapli_cfg_1" false]
    decide
  · exact claim_C9_theorem.2.2.1 ⟨[], [(some "__SCRAPLI_CFG_SESSION_NAME__", false)], ""⟩
      "scrapli_cfg_1" [] (by decide) (by decide)
  · exact claim_C9_theorem.2.2.2 ⟨["__SCRAPLI_CFG_SESSION_NAME__"], [], "scrapli_cfg_1"⟩
      "__SCRAPLI_CFG_SESSION_NAME__" [] rfl (by decide) (by decide)

/-- C10: an unknown-input fallback event that signals closure terminates the
channel but leaves the on-open phase and checklist unchanged and still sets the
privilege level to the event's result_privilege_level — while a standard
catalog event that closes the connection resets privilege level, phase and
checklist back to their initial values. -/
theorem claim_C10_theorem (cd : CollectData) (st : SessionState) :
    (∀ (phases : Dict StandardEvent) (event : StandardEvent),
      dictGet cd.unknownEvents st.currentPrivilegeLevel = some phases →
      dictGet phases st.onOpenState.value = some event →
      event.closesConnection = true →
      unknownEvent cd st = .ok
        { st with chanOutput := st.chanOutput ++ [event.channelOutput],
                  closed := true,
                  currentPrivilegeLevel := event.resultPrivilegeLevel }) ∧
    (∀ (channelInput : String) (event : StandardEvent),
      event.closesConnection = true →
      standardEvent cd st channelInput event =
        { st with chanOutput := st.chanOutput ++ [""],
                  closed := true,
                  currentPrivilegeLevel := cd.initialPrivilegeLevel,
                  onOpenState := .pre,
                  onOpenCommandsList := cd.onOpenInputs }) := by
  constructor
  · intro phases event h1 h2 hclose
    simp [unknownEvent, h1, h2, hclose]
  · intro channelInput event hclose
    unfold standardEvent
    rw [if_pos (Or.inr hclose)]

/-- C10 witness: the frame conditions at a concrete catalog whose unknown
event closes the connection. -/
theorem claim_C10_witness :
    unknownEvent closingUnknownData (sessionInit closingUnknownData) =
      .ok { sessionInit closingUnknownData with
            chanOutput := ["connection closed"], closed := true,
            currentPrivilegeLevel := "lowpriv" } ∧
    standardEvent closingUnknownData (sessionInit closingUnknownData) "quit"
        ⟨"", "x", true⟩ =
      { sessionInit closingUnknownData with
        chanOutput := [""], closed := true, currentPrivilegeLevel := "exec",
        onOpenState := .pre, onOpenCommandsList := ["disable paging"] } := by
  constructor
  · have h := (claim_C10_theorem closingUnknownData (sessionInit closingUnknownData)).1
      [("pre_on_open", ⟨"connection closed", "lowpriv", true⟩)]
      ⟨"connection closed", "lowpriv", true⟩ rfl rfl rfl
    simpa using h
  · have h := (claim_C10_theorem closingUnknownData (sessionInit closingUnknownData)).2
      "quit" ⟨"", "x", true⟩ rfl
    simpa using h

/-- C5 (counterexample): the claim says a mismatched input at a hidden-input
step retries the same step once before falling through to an unknown-input
response.  In the source a hidden-step mismatch retries every time and never
falls through: after entering the `enableDialog` and sending two consecutive
wrong passwords, the session is still in dialog mode at the same step, the
password prompt has been re-emitted for each attempt, and the unknown-input
event output was never written. -/
theorem claim_C5_counterexample :
    runDataReceived dialogData (sessionInit dialogData) ["enable", "wrong", "wrong"] =
      .ok { hideInput := true, interacting := true,
            interactingEvent := some enableDialog, interactIndex := 1,
            onOpenState := .pre, onOpenCommandsList := [],
            currentPrivilegeLevel := "exec",
            chanOutput := ["Password: ", "Password: ", "Password: "],
            chanEcho := false, closed := false } := by
  decide

/-- C5 (amended): in the interactive dialog handling, steps are consumed
strictly in order; a mismatched input at a hidden-input step retries the same
step every time it occurs — the step index does not advance (the step at
Python index i−1, i.e. the last step when i = 0, has its output re-emitted)
and the dialog is never abandoned for the unknown-input handler — while a
mismatched input at a non-hidden step aborts the dialog (resetting the
interacting flag, event, and step index) and falls through to the
unknown-input handler; on a match the step's output is emitted and the index
advances (hiding the echo when the next step has hidden input), and completing
the final step exits dialog mode and adopts the dialog's declared resulting
privilege level. -/
theorem claim_C5_theorem (cd : CollectData) (st : SessionState)
    (iev : InteractiveEvent) (step : InteractStep) (channelInput : String)
    (hev : st.interactingEvent = some iev)
    (hidx : 0 ≤ st.interactIndex)
    (hstep : pyIndex iev.eventSteps st.interactIndex = some step) :
    (step.hiddenInput = true → channelInput ≠ "scrapli" →
      ∀ prior, pyIndex iev.eventSteps (st.interactIndex - 1) = some prior →
      interactiveEvent cd st channelInput =
        .ok { st with chanOutput := st.chanOutput ++ [prior.channelOutput],
                      hideInput := true, chanEcho := false }) ∧
    (step.hiddenInput = false → channelInput ≠ step.channelInput →
      interactiveEvent cd st channelInput =
        unknownEvent cd
          { st with interacting := false, interactingEvent := none, interactIndex := 0,
                    hideInput := false,
                    chanEcho := if st.hideInput then true else st.chanEcho }) ∧
    ((step.hiddenInput = true ∧ channelInput = "scrapli") ∨
      (step.hiddenInput = false ∧ channelInput = step.channelInput) →
      st.interactIndex + 1 = (iev.eventSteps.length : Int) →
      interactiveEvent cd st channelInput =
        .ok { st with chanOutput := st.chanOutput ++ [step.channelOutput],
                      currentPrivilegeLevel := iev.resultPrivilegeLevel,
                      interacting := false, interactingEvent := none, interactIndex := 0,
                      hideInput := false,
                      chanEcho := if st.hideInput then true else st.chanEcho }) ∧
    ((step.hiddenInput = true ∧ channelInput = "scrapli") ∨
      (step.hiddenInput = false ∧ channelInput = step.channelInput) →
      st.interactIndex + 1 ≠ (iev.eventSteps.length : Int) →
      ∀ next, pyIndex iev.eventSteps (st.interactIndex + 1) = some next →
      interactiveEvent cd st channelInput =
        .ok (if next.hiddenInput = true then
          { st with chanOutput := st.chanOutput ++ [step.channelOutput],
                    interactIndex := st.interactIndex + 1,
                    hideInput := true, chanEcho := false }
        else
          { st with chanOutput := st.chanOutput ++ [step.channelOutput],
                    interactIndex := st.interactIndex + 1,
                    hideInput := false,
                    chanEcho := if st.hideInput then true else st.chanEcho })) := by
  have hlt : st.interactIndex < (iev.eventSteps.length : Int) := pyIndex_some_lt hstep hidx
  obtain ⟨hi, ia, ie, idx, oos, oocl, cpl, co, ce, cl⟩ := st
  replace hev : ie = some iev := hev
  replace hidx : (0 : Int) ≤ idx := hidx
  replace hstep : pyIndex iev.eventSteps idx = some step := hstep
  replace hlt : idx < (iev.eventSteps.length : Int) := hlt
  subst hev
  refine ⟨?_, ?_, ?_, ?_⟩
  · intro hhidden hne prior hprior
    replace hprior : pyIndex iev.eventSteps (idx - 1) = some prior := hprior
    have hne3 : ¬(idx = (iev.eventSteps.length : Int)) := by omega
    cases hi <;>
      simp [interactiveEvent, interactiveStepFinish, hstep, hhidden, hne, hprior,
        hne3, Int.sub_add_cancel]
  · intro hhidden hne
    cases hi <;>
      simp [interactiveEvent, hstep, hhidden, hne]
  · intro hmatch hlast
    replace hlast : idx + 1 = (iev.eventSteps.length : Int) := hlast
    rcases hmatch with ⟨hhidden, hin⟩ | ⟨hhidden, hin⟩ <;> cases hi <;>
      simp [interactiveEvent, interactiveStepFinish, hstep, hhidden, hin, hlast]
  · intro hmatch hlast next hnext
    replace hlast : ¬(idx + 1 = (iev.eventSteps.length : Int)) := hlast
    replace hnext : pyIndex iev.eventSteps (idx + 1) = some next := hnext
    rcases hmatch with ⟨hhidden, hin⟩ | ⟨hhidden, hin⟩ <;> cases hi <;>
      by_cases hnh : next.hiddenInput = true <;>
      simp [interactiveEvent, interactiveStepFinish, hstep, hhidden, hin, hlast,
        hnext, hnh]

/-- C5 witness: the branch behaviors at the concrete `enableDialog`, in the
state waiting at the hidden password step: a wrong password re-emits the
password prompt and stays at the same step; the correct password completes the
dialog and adopts the dialog's privilege level. -/
theorem claim_C5_witness :
    interactiveEvent dialogData
      ⟨true, true, some enableDialog, 1, .pre, [], "exec", ["Password: "], false, false⟩
      "wrong" =
      .ok ⟨true, true, some enableDialog, 1, .pre, [], "exec",
        ["Password: ", "Password: "], false, false⟩ ∧
    interactiveEvent dialogData
      ⟨true, true, some enableDialog, 1, .pre, [], "exec", ["Password: "], false, false⟩
      "scrapli" =
      .ok ⟨false, false, none, 0, .pre, [], "priv",
        ["Password: ", "device-priv#"], true, false⟩ :=
  ⟨(claim_C5_theorem dialogData
      ⟨true, true, some enableDialog, 1, .pre, [], "exec", ["Password: "], false, false⟩
      enableDialog ⟨"scrapli", "device-priv#", true⟩ "wrong"
      rfl (by decide) (by decide)).1 rfl (by decide)
      ⟨"enable", "Password: ", false⟩ (by decide),
   (claim_C5_theorem dialogData
      ⟨true, true, some enableDialog, 1, .pre, [], "exec", ["Password: "], false, false⟩
      enableDialog ⟨"scrapli", "device-priv#", true⟩ "scrapli"
      rfl (by decide) (by decide)).2.2.1 (.inl ⟨rfl, rfl⟩) (by decide)⟩

/-- C6: every session starts in the `"pre_on_open"` phase; for a catalog with
`on_open_inputs = ["disable paging"]`, a client sending exactly that input
once (matching a standard, non-closing catalog event) moves the session to the
`"post_on_open"` phase with an empty checklist; in general a non-closing
standard event removes a received input matching a pending on-open command
from the checklist (first occurrence), the resulting phase is post exactly
when the resulting checklist is empty (given the invariant that a post phase
implies an already-empty checklist), and unknown-input events never change the
phase or the checklist. -/
theorem claim_C6_theorem (cd : CollectData) :
    ((sessionInit cd).onOpenState = .pre) ∧
    (∀ (phases : Dict (Dict Event)) (inputEvents : Dict Event) (e : StandardEvent),
      cd.onOpenInputs = ["disable paging"] →
      dictGet cd.events cd.initialPrivilegeLevel = some phases →
      dictGet phases "pre_on_open" = some inputEvents →
      dictGet inputEvents "disable paging" = some (.standard e) →
      e.channelOutput ≠ "__CLOSES_CONNECTION__" → e.closesConnection = false →
      dataReceived cd (sessionInit cd) "disable paging" =
        .ok (standardEvent cd (sessionInit cd) "disable paging" e) ∧
      (standardEvent cd (sessionInit cd) "disable paging" e).onOpenState = .post ∧
      (standardEvent cd (sessionInit cd) "disable paging" e).onOpenCommandsList = []) ∧
    (∀ (st : SessionState) (channelInput : String) (e : StandardEvent),
      e.channelOutput ≠ "__CLOSES_CONNECTION__" → e.closesConnection = false →
      channelInput ∈ st.onOpenCommandsList →
      (standardEvent cd st channelInput e).onOpenCommandsList =
        st.onOpenCommandsList.erase channelInput) ∧
    (∀ (st : SessionState) (channelInput : String) (e : StandardEvent),
      e.channelOutput ≠ "__CLOSES_CONNECTION__" → e.closesConnection = false →
      (st.onOpenState = .post → st.onOpenCommandsList = []) →
      ((standardEvent cd st channelInput e).onOpenState = .post ↔
        (standardEvent cd st channelInput e).onOpenCommandsList = [])) ∧
    (∀ st st', unknownEvent cd st = .ok st' →
      st'.onOpenState = st.onOpenState ∧
      st'.onOpenCommandsList = st.onOpenCommandsList) := by
  refine ⟨rfl, ?_, ?_, ?_, ?_⟩
  · intro phases inputEvents e hinputs h1 h2 h3 hco hcc
    have hrstrip : rstrip "disable paging" = "disable paging" := by decide
    have hne : ("disable paging" : String) ≠ "\n" := by decide
    have hdata : dataReceived cd (sessionInit cd) "disable paging" =
        .ok (standardEvent cd (sessionInit cd) "disable paging" e) := by
      simp [dataReceived, hrstrip, hne, sessionInit, OnOpenState.value, h1, h2, h3]
    refine ⟨hdata, ?_, ?_⟩
    · simp [standardEvent, hco, hcc, sessionInit, hinputs, List.erase_cons_head]
    · simp [standardEvent, hco, hcc, sessionInit, hinputs, List.erase_cons_head]
  · intro st channelInput e hco hcc hmem
    simp [standardEvent, hco, hcc, hmem]
    split <;> rfl
  · intro st channelInput e hco hcc hinv
    by_cases hmem : channelInput ∈ st.onOpenCommandsList
    · by_cases hemp : st.onOpenCommandsList.erase channelInput = []
      · simp [standardEvent, hco, hcc, hmem, hemp]
      · simp [standardEvent, hco, hcc, hmem, hemp]
        intro hpost
        have hnil := hinv hpost
        rw [hnil] at hmem
        simp at hmem
    · by_cases hemp : st.onOpenCommandsList = []
      · simp [standardEvent, hco, hcc, hmem, hemp]
      · simp [standardEvent, hco, hcc, hmem, hemp]
        intro hpost
        exact absurd (hinv hpost) hemp
  · intro st st' h
    unfold unknownEvent at h
    split at h
    · exact absurd h (by simp)
    · split at h
      · exact absurd h (by simp)
      · rename_i event heq
        by_cases hc : event.closesConnection = true <;>
          simp [hc] at h <;> subst h <;> exact ⟨rfl, rfl⟩

/-- C6 witness: the `pagingData` catalog at the concrete input
`"disable paging"`. -/
theorem claim_C6_witness :
    (sessionInit pagingData).onOpenState = .pre ∧
    dataReceived pagingData (sessionInit pagingData) "disable paging" =
      .ok (standardEvent pagingData (sessionInit pagingData) "disable paging"
        ⟨"", "exec", false⟩) ∧
    (standardEvent pagingData (sessionInit pagingData) "disable paging"
      ⟨"", "exec", false⟩).onOpenState = .post :=
  ⟨(claim_C6_theorem pagingData).1,
   ((claim_C6_theorem pagingData).2.1
      [("pre_on_open", [("disable paging", .standard ⟨"", "exec", false⟩)]),
       ("post_on_open", [])]
      [("disable paging", .standard ⟨"", "exec", false⟩)]
      ⟨"", "exec", false⟩ rfl rfl rfl rfl (by decide) rfl).1,
   ((claim_C6_theorem pagingData).2.1
      [("pre_on_open", [("disable paging", .standard ⟨"", "exec", false⟩)]),
       ("post_on_open", [])]
      [("disable paging", .standard ⟨"", "exec", false⟩)]
      ⟨"", "exec", false⟩ rfl rfl rfl rfl (by decide) rfl).2.1⟩

/-- C7 (counterexample): the claim says malformed or missing catalog data for a
reachable `(privilegeLevel, phase)` pair is a configuration error raised when
the server loads the catalog.  In the source `BaseServer.__init__` performs no
validation: `missingBucketData` (privilege level `"exec"` lacking the
`post_on_open` bucket of `unknown_events`) loads without error, the pair
`("exec", post_on_open)` is reached after the first input, and the error first
surfaces as a `KeyError` at request time, when the second input triggers a
lookup for that pair. -/
theorem claim_C7_counterexample :
    baseServerInit missingBucketData = .ok missingBucketData ∧
    (runDataReceived missingBucketData (sessionInit missingBucketData) ["foo"]).map
      (fun s => s.onOpenState) = .ok .post ∧
    runDataReceived missingBucketData (sessionInit missingBucketData) ["foo", "bar"] =
      .error .keyError := by
  refine ⟨rfl, by decide, by decide⟩

/-- C7 (amended): loading the catalog never raises a configuration error for
missing phase buckets (the server `__init__` stores the parsed data
unvalidated); a missing bucket for a reachable `(privilegeLevel, phase)` pair
instead surfaces at request time, as a `KeyError` when a client input first
triggers a lookup for that pair. -/
theorem claim_C7_theorem :
    (∀ cd : CollectData, baseServerInit cd = .ok cd) ∧
    dictGet (missingBucketData.unknownEvents) "exec" =
      some [("pre_on_open", unknownEvt)] ∧
    (runDataReceived missingBucketData (sessionInit missingBucketData) ["foo"]).map
      (fun s => (s.currentPrivilegeLevel, s.onOpenState)) = .ok ("exec", .post) ∧
    runDataReceived missingBucketData (sessionInit missingBucketData) ["foo", "bar"] =
      .error .keyError := by
  refine ⟨fun _ => rfl, by decide, by decide, by decide⟩
